import Mathlib

/-!
Verification of the asynchronous delivery-notification producer
(`src/producer/base_producer.rs`): a shallow embedding of `DeliveryReport`,
the callback bridge `delivery_cb`, and `BaseProducer`'s `send_copy`, `flush`
and `clone`, together with theorems about the ownership protocol and the
error surface.

Machine-level conventions of the embedding:
* raw addresses (`*mut c_void`, box addresses) are `Ptr := Nat`, the null
  pointer is `0`;
* byte strings (`&str` payload/key bytes after `to_bytes`) are `List Nat`;
* the native engine (librdkafka) is an external collaborator: its entry
  points are parameters or are modelled from their specified interface;
* ownership-relevant primitives (`Box::from_raw`, `Box::into_raw`,
  `mem::forget`, end-of-scope drops) are recorded explicitly, so that the
  destruction discipline of the bridge is a computable trace.
-/

namespace BaseProducerModel

/-- Raw machine addresses. -/
abbrev Ptr := Nat

/-- `ptr::null_mut()`. -/
def nullPtr : Ptr := 0

/-- The engine's response-code type `rd_kafka_resp_err_t`, as its numeric
code; `RD_KAFKA_RESP_ERR_NO_ERROR` is `0`. -/
abbrev RDKafkaRespErr := Int

/-- Modelled from the spec: the `IsError` predicate of the client's error
module (that module is not among the analysed sources); per the spec a
non-zero response code is an error and the zero code is "no error". -/
def isError (e : RDKafkaRespErr) : Bool := e != 0

/-- Modelled from the spec: the error taxonomy of the client's error module
(not among the analysed sources): a discriminated production error carrying
the engine's native response code, and a construction error from
null-terminated string conversion (`CString::new` failure). -/
inductive KafkaError where
  | MessageProduction (code : RDKafkaRespErr)
  | Nul
deriving Repr, DecidableEq

/-- `KafkaResult<T>`. -/
abbrev KafkaResult (α : Type) := Except KafkaError α

instance {ε α : Type} [DecidableEq ε] [DecidableEq α] : DecidableEq (Except ε α) :=
  fun a b =>
    match a, b with
    | Except.ok x, Except.ok y =>
        if h : x = y then isTrue (by rw [h]) else isFalse (by intro hc; cases hc; exact h rfl)
    | Except.error x, Except.error y =>
        if h : x = y then isTrue (by rw [h]) else isFalse (by intro hc; cases hc; exact h rfl)
    | Except.ok _, Except.error _ => isFalse (by intro hc; cases hc)
    | Except.error _, Except.ok _ => isFalse (by intro hc; cases hc)

--
-- ********** DELIVERY REPORT **********
--

/-- `DeliveryReport`: outcome of one produced message. -/
structure DeliveryReport where
  error : RDKafkaRespErr
  partition : Int
  offset : Int
deriving Repr, DecidableEq

/-- `DeliveryReport::new`. -/
def DeliveryReport.new (err : RDKafkaRespErr) (partition : Int) (offset : Int) :
    DeliveryReport :=
  { error := err, partition := partition, offset := offset }

/-- `DeliveryReport::success`: `!self.error.is_error()`. -/
def DeliveryReport.success (r : DeliveryReport) : Bool :=
  !(isError r.error)

/-- `DeliveryReport::result`: the error variant carrying the code when
`is_error`, otherwise `Ok((partition, offset))`. -/
def DeliveryReport.result (r : DeliveryReport) : KafkaResult (Int × Int) :=
  if isError r.error then
    Except.error (KafkaError.MessageProduction r.error)
  else
    Except.ok (r.partition, r.offset)

--
-- ********** CALLBACK BRIDGE **********
--

/-- The completion record `RDKafkaMessage` as seen by `delivery_cb`:
response code, partition, offset, and the per-message opaque handle stored
in the `_private` field (here `priv`). -/
structure RDKafkaMessage where
  err : RDKafkaRespErr
  partition : Int
  offset : Int
  priv : Ptr
deriving Repr, DecidableEq

/-- Ownership/effect state threaded through one invocation of the bridge:
`owned` lists the box addresses the function's scope currently owns (in
declaration order), `freed` the boxes whose deallocation has run, `forgotten`
the boxes surrendered via `mem::forget` (destructor never run), and `calls`
the invocations of the capability's `delivery` method as
(capability address, report, delivery-context address). -/
structure CbState where
  owned : List Ptr
  freed : List Ptr
  forgotten : List Ptr
  calls : List (Ptr × DeliveryReport × Ptr)
deriving Repr, DecidableEq

/-- `Box::from_raw(p)`: the scope takes ownership of the box at `p`. -/
def boxFromRaw (p : Ptr) (s : CbState) : CbState :=
  { s with owned := s.owned ++ [p] }

/-- `mem::forget(x)` on the box at `p`: ownership is given up without the
destructor running. -/
def memForget (p : Ptr) (s : CbState) : CbState :=
  { s with owned := s.owned.erase p, forgotten := s.forgotten ++ [p] }

/-- Invocation of the capability's `delivery` method: the capability at
`ctx` consumes the report and the delivery context at `dctx`. -/
def callDelivery (ctx : Ptr) (r : DeliveryReport) (dctx : Ptr) (s : CbState) :
    CbState :=
  { s with calls := s.calls ++ [(ctx, r, dctx)] }

/-- End of the function's scope: every still-owned box is dropped, in
reverse declaration order. -/
def scopeEnd (s : CbState) : CbState :=
  { s with owned := [], freed := s.freed ++ s.owned.reverse }

/-- `delivery_cb::<C>` line by line. `ctxPtr` is the `_opaque` argument (the
capability handle registered at construction) and `msg` the completion
record. The `trace!` logging line has no ownership effect and is not
modelled. Note that `(*context).delivery(delivery_status, (*delivery_context))`
consumes the delivery context, whose box is then released at scope end,
while `mem::forget(context)` re-donates the capability box unfreed. -/
def delivery_cb (ctxPtr : Ptr) (msg : RDKafkaMessage) : CbState :=
  let s0 : CbState := { owned := [], freed := [], forgotten := [], calls := [] }
  let s1 := boxFromRaw ctxPtr s0
  let s2 := boxFromRaw msg.priv s1
  let delivery_status := DeliveryReport.new msg.err msg.partition msg.offset
  let s3 := callDelivery ctxPtr delivery_status msg.priv s2
  let s4 := memForget ctxPtr s3
  scopeEnd s4

/-- The allocations of `heap` still live after one bridge invocation with
effect state `s`. -/
def aliveAfter (heap : List Ptr) (s : CbState) : List Ptr :=
  heap.filter (fun p => !(s.freed.contains p))

/-- Repeated completions: fold the bridge's heap effect over a list of
completion records, all dispatched with the same capability handle. -/
def processCompletions (ctxPtr : Ptr) : List Ptr → List RDKafkaMessage → List Ptr
  | heap, [] => heap
  | heap, m :: ms =>
      processCompletions ctxPtr (aliveAfter heap (delivery_cb ctxPtr m)) ms

--
-- ********** SEND **********
--

/-- `RD_KAFKA_MSG_F_COPY` (value from the native bindings; only its identity
matters to the claims): the copy-semantics flag. -/
def RD_KAFKA_MSG_F_COPY : Int := 2

/-- The argument vector `send_copy` passes to `rd_kafka_producev`, one field
per `RD_KAFKA_VTYPE_*` entry. A byte-span argument is `none` for the null
pointer and `some bytes` for a non-null buffer holding those bytes; `handle`
is the `RD_KAFKA_VTYPE_OPAQUE` per-message handle. -/
structure ProducevArgs where
  topic : List Nat
  partition : Int
  msgflags : Int
  payloadPtr : Option (List Nat)
  payloadLen : Nat
  keyPtr : Option (List Nat)
  keyLen : Nat
  handle : Ptr
  timestamp : Int
deriving Repr, DecidableEq

/-- `CString::new`: fails exactly when the byte string contains a NUL byte. -/
def cstringNew (bytes : List Nat) : Option (List Nat) :=
  if bytes.contains 0 then none else some bytes

/-- Observable effects of one `send_copy` call: the returned `KafkaResult`,
the `rd_kafka_producev` invocation (argument vector and response code) when
the engine was reached, the `Box::into_raw` run on the delivery context
(`some` iff a delivery context was present), and the delivery-context boxes
whose destructor `send_copy` itself ran (the source runs none on any path:
both match arms at lines 169-172 consume the `Option<Box<_>>` without a
drop, and no later statement reclaims the raw pointer). -/
structure SendOutcome where
  result : KafkaResult Unit
  call : Option (ProducevArgs × RDKafkaRespErr)
  intoRawed : Option Ptr
  droppedBoxes : List Ptr
deriving Repr, DecidableEq

/-- `BaseProducer::send_copy` line by line. The engine's `rd_kafka_producev`
is the external parameter `producev` (argument vector to response code); a
`Box<C::DeliveryContext>` is identified by its box address, so the
`delivery_context` parameter is `Option Ptr` and `Box::into_raw` on it
yields that address. Payload and key are the byte strings their `to_bytes`
produce. -/
def send_copy (producev : ProducevArgs → RDKafkaRespErr)
    (topic_name : List Nat) (partition : Option Int)
    (payload : Option (List Nat)) (key : Option (List Nat))
    (delivery_context : Option Ptr) (timestamp : Option Int) : SendOutcome :=
  let payloadPair : Option (List Nat) × Nat :=
    match payload with
    | none => (none, 0)
    | some p => (some p, p.length)
  let keyPair : Option (List Nat) × Nat :=
    match key with
    | none => (none, 0)
    | some k => (some k, k.length)
  let delivery_context_ptr : Ptr :=
    match delivery_context with
    | some context => context
    | none => nullPtr
  match cstringNew topic_name with
  | none =>
      { result := Except.error KafkaError.Nul
        call := none
        intoRawed := delivery_context
        droppedBoxes := [] }
  | some topic_name_c =>
      let args : ProducevArgs :=
        { topic := topic_name_c
          partition := partition.getD (-1)
          msgflags := RD_KAFKA_MSG_F_COPY
          payloadPtr := payloadPair.1
          payloadLen := payloadPair.2
          keyPtr := keyPair.1
          keyLen := keyPair.2
          handle := delivery_context_ptr
          timestamp := timestamp.getD 0 }
      let produce_error := producev args
      if isError produce_error then
        { result := Except.error (KafkaError.MessageProduction produce_error)
          call := some (args, produce_error)
          intoRawed := delivery_context
          droppedBoxes := [] }
      else
        { result := Except.ok ()
          call := some (args, produce_error)
          intoRawed := delivery_context
          droppedBoxes := [] }

--
-- ********** SHARED CLIENT HANDLE AND CLONE **********
--

/-- `Client<C>`: the native engine connection plus the context capability. -/
structure Client (C : Type) where
  nativePtr : Ptr
  context : C

/-- The allocations behind `Arc<T>`: address to (value, strong count). -/
def ArcHeap (T : Type) := Ptr → Option (T × Nat)

/-- `Arc::clone` at `p`: same allocation, strong count incremented. -/
def arcClone {T : Type} (h : ArcHeap T) (p : Ptr) : ArcHeap T :=
  fun q => if q = p then (h q).map (fun vc => (vc.1, vc.2 + 1)) else h q

/-- `BaseProducer<C>`: nothing but the `Arc<Client<C>>` reference. -/
structure BaseProducer where
  client_arc : Ptr

/-- `BaseProducer::native_ptr`: the shared client's native engine handle. -/
def BaseProducer.native_ptr {C : Type} (b : BaseProducer)
    (h : ArcHeap (Client C)) : Option Ptr :=
  (h b.client_arc).map (fun vc => vc.1.nativePtr)

/-- `impl Clone for BaseProducer`: `BaseProducer { client_arc:
self.client_arc.clone() }`; returns the new handle and the heap after the
reference-count increment. -/
def BaseProducer.clone {C : Type} (b : BaseProducer)
    (h : ArcHeap (Client C)) : BaseProducer × ArcHeap (Client C) :=
  ({ client_arc := b.client_arc }, arcClone h b.client_arc)

--
-- ********** FLUSH **********
--

/-- The engine's timed-out response code `RD_KAFKA_RESP_ERR__TIMED_OUT`. -/
def RD_KAFKA_RESP_ERR_TIMED_OUT : RDKafkaRespErr := -185

/-- Modelled from the spec: the engine's `rd_kafka_flush` (the engine is an
external collaborator) blocks, internally polling, until all previously
accepted messages are completed or the timeout elapses, and its response
code reports which branch occurred: no error when quiescent, the timed-out
code when messages are still pending at return. `pendingAtReturn` abstracts
the number of accepted sends still without a delivery report when the call
returns. -/
def rd_kafka_flush (timeout_ms : Int) (pendingAtReturn : Nat) : RDKafkaRespErr :=
  let _ := timeout_ms
  if pendingAtReturn = 0 then 0 else RD_KAFKA_RESP_ERR_TIMED_OUT

/-- `BaseProducer::flush`: calls `rd_kafka_flush` and discards its response
code; the Rust function returns `()`. -/
def BaseProducer.flush (timeout_ms : Int) (pendingAtReturn : Nat) : Unit :=
  let _ := rd_kafka_flush timeout_ms pendingAtReturn
  ()

--
-- ********** HELPER LEMMAS **********
--

theorem delivery_cb_freed (ctxPtr : Ptr) (msg : RDKafkaMessage) :
    (delivery_cb ctxPtr msg).freed = [msg.priv] := by
  simp [delivery_cb, boxFromRaw, callDelivery, memForget, scopeEnd]

theorem delivery_cb_calls (ctxPtr : Ptr) (msg : RDKafkaMessage) :
    (delivery_cb ctxPtr msg).calls =
      [(ctxPtr, DeliveryReport.new msg.err msg.partition msg.offset, msg.priv)] := by
  simp [delivery_cb, boxFromRaw, callDelivery, memForget, scopeEnd]

theorem delivery_cb_forgotten (ctxPtr : Ptr) (msg : RDKafkaMessage) :
    (delivery_cb ctxPtr msg).forgotten = [ctxPtr] := by
  simp [delivery_cb, boxFromRaw, callDelivery, memForget, scopeEnd]

theorem processCompletions_mem (ctxPtr : Ptr) (heap : List Ptr)
    (msgs : List RDKafkaMessage) (hin : ctxPtr ∈ heap)
    (hne : ∀ m ∈ msgs, m.priv ≠ ctxPtr) :
    ctxPtr ∈ processCompletions ctxPtr heap msgs := by
  induction msgs generalizing heap with
  | nil => simpa [processCompletions] using hin
  | cons m ms ih =>
      have hm : m.priv ≠ ctxPtr := hne m (List.mem_cons_self m ms)
      have hin2 : ctxPtr ∈ aliveAfter heap (delivery_cb ctxPtr m) := by
        simp [aliveAfter, delivery_cb_freed]
        exact ⟨hin, fun h => hm h.symm⟩
      exact ih _ hin2 (fun m2 hm2 => hne m2 (List.mem_cons_of_mem m hm2))

theorem cstringNew_eq_some (b t : List Nat) (h : cstringNew b = some t) :
    t = b ∧ b.contains 0 = false := by
  unfold cstringNew at h
  cases hb : b.contains 0 with
  | true => rw [hb] at h; simp at h
  | false =>
      rw [hb] at h
      simp at h
      exact ⟨h.symm, rfl⟩

theorem send_copy_call_spec (pv : ProducevArgs → RDKafkaRespErr)
    (topic_name : List Nat) (partition : Option Int)
    (payload key : Option (List Nat)) (dctx : Option Ptr) (ts : Option Int)
    (args : ProducevArgs) (code : RDKafkaRespErr)
    (hcall : (send_copy pv topic_name partition payload key dctx ts).call
        = some (args, code)) :
    code = pv args
    ∧ args.topic = topic_name
    ∧ args.partition = partition.getD (-1)
    ∧ args.msgflags = RD_KAFKA_MSG_F_COPY
    ∧ args.payloadPtr = payload
    ∧ args.payloadLen = (payload.map List.length).getD 0
    ∧ args.keyPtr = key
    ∧ args.keyLen = (key.map List.length).getD 0
    ∧ args.handle = dctx.getD nullPtr
    ∧ args.timestamp = ts.getD 0 := by
  cases hc : cstringNew topic_name with
  | none => simp [send_copy, hc] at hcall
  | some t =>
      obtain ⟨ht, hfree⟩ := cstringNew_eq_some topic_name t hc
      subst ht
      simp only [send_copy, hc] at hcall
      split at hcall <;>
        (simp only [Option.some.injEq, Prod.mk.injEq] at hcall
         obtain ⟨h1, h2⟩ := hcall
         subst h1
         subst h2
         refine ⟨rfl, rfl, rfl, rfl, ?_, ?_, ?_, ?_, ?_, rfl⟩ <;>
           first
             | (cases payload <;> rfl)
             | (cases key <;> rfl)
             | (cases dctx <;> rfl))

theorem send_copy_result_spec (pv : ProducevArgs → RDKafkaRespErr)
    (topic_name : List Nat) (partition : Option Int)
    (payload key : Option (List Nat)) (dctx : Option Ptr) (ts : Option Int)
    (args : ProducevArgs) (code : RDKafkaRespErr)
    (hcall : (send_copy pv topic_name partition payload key dctx ts).call
        = some (args, code)) :
    (send_copy pv topic_name partition payload key dctx ts).result
      = if isError code then
          Except.error (KafkaError.MessageProduction code)
        else Except.ok () := by
  cases hc : cstringNew topic_name with
  | none => simp [send_copy, hc] at hcall
  | some t =>
      simp only [send_copy, hc] at hcall ⊢
      split at hcall <;>
        rename_i hie <;>
        (simp only [Option.some.injEq, Prod.mk.injEq] at hcall
         obtain ⟨h1, h2⟩ := hcall
         subst h1
         subst h2
         simp [hie])

theorem send_copy_ownership_effects (pv : ProducevArgs → RDKafkaRespErr)
    (topic_name : List Nat) (partition : Option Int)
    (payload key : Option (List Nat)) (dctx : Option Ptr) (ts : Option Int) :
    (send_copy pv topic_name partition payload key dctx ts).intoRawed = dctx
    ∧ (send_copy pv topic_name partition payload key dctx ts).droppedBoxes = [] := by
  cases hc : cstringNew topic_name with
  | none => simp [send_copy, hc]
  | some t =>
      simp only [send_copy, hc]
      split <;> exact ⟨rfl, rfl⟩

--
-- ********** CLAIM THEOREMS **********
--

/-- C1: for every completion delivered to the callback bridge, the producer
context capability reconstructed from the engine's opaque handle is not
destroyed: it is re-donated via `mem::forget` after `delivery` returns (its
destructor never runs), so the same handle stays live across any number of
completions, and every completion invokes `delivery` through that same
handle. -/
theorem context_capability_never_destroyed (ctxPtr : Ptr) (heap : List Ptr)
    (msgs : List RDKafkaMessage) (hin : ctxPtr ∈ heap)
    (hne : ∀ m ∈ msgs, m.priv ≠ ctxPtr) :
    ctxPtr ∈ processCompletions ctxPtr heap msgs
    ∧ ∀ m ∈ msgs,
        ctxPtr ∉ (delivery_cb ctxPtr m).freed
        ∧ (delivery_cb ctxPtr m).forgotten = [ctxPtr]
        ∧ (delivery_cb ctxPtr m).calls
            = [(ctxPtr, DeliveryReport.new m.err m.partition m.offset, m.priv)] := by
  refine ⟨processCompletions_mem ctxPtr heap msgs hin hne, ?_⟩
  intro m hm
  refine ⟨?_, delivery_cb_forgotten ctxPtr m, delivery_cb_calls ctxPtr m⟩
  rw [delivery_cb_freed]
  simp only [List.mem_singleton]
  exact fun h => hne m hm h.symm

/-- C1 witness: capability at address 1, two completions with per-message
handles 2 and 4. -/
theorem context_capability_never_destroyed_witness :
    1 ∈ processCompletions 1 [1]
        [{ err := 0, partition := 0, offset := 0, priv := 2 },
         { err := 7, partition := 3, offset := 9, priv := 4 }]
    ∧ ∀ m ∈ ([{ err := 0, partition := 0, offset := 0, priv := 2 },
              { err := 7, partition := 3, offset := 9, priv := 4 }] :
          List RDKafkaMessage),
        1 ∉ (delivery_cb 1 m).freed
        ∧ (delivery_cb 1 m).forgotten = [1]
        ∧ (delivery_cb 1 m).calls
            = [(1, DeliveryReport.new m.err m.partition m.offset, m.priv)] :=
  context_capability_never_destroyed 1 [1]
    [{ err := 0, partition := 0, offset := 0, priv := 2 },
     { err := 7, partition := 3, offset := 9, priv := 4 }]
    (by decide) (by decide)

/-- C2 counterexample: a `send_copy` call with a present delivery context
(box address 5) that the engine rejects synchronously (code 1). Contrary to
the claim, the delivery context IS handed to the engine — the
`rd_kafka_producev` invocation carries handle 5 — because `Box::into_raw`
runs before the engine call; and it is not returned to the caller: the
result is only an error value, `send_copy` runs no box destructor, and no
completion will reclaim the pointer for a rejected send. -/
theorem send_copy_rejected_hands_context_counterexample :
    (send_copy (fun _ => 1) [116] none none none (some 5) none).result
        = Except.error (KafkaError.MessageProduction 1)
    ∧ ((send_copy (fun _ => 1) [116] none none none (some 5) none).call).map
          (fun c => c.1.handle) = some 5
    ∧ (send_copy (fun _ => 1) [116] none none none (some 5) none).intoRawed = some 5
    ∧ (send_copy (fun _ => 1) [116] none none none (some 5) none).droppedBoxes = [] :=
  ⟨rfl, rfl, rfl, rfl⟩

/-- C2 amended: when the engine rejects a `send_copy` synchronously, the
producer context's delivery method is never invoked for that send (the
engine produces no completion for a rejected send), and `send_copy` returns
the production error carrying the code — but the delivery context is NOT
returned to the caller: `Box::into_raw` has already run, the raw pointer
was handed to the engine as the per-message handle, and `send_copy`
destroys no box on any path, so the delivery context is leaked. -/
theorem send_copy_rejected_leaks_context
    (pv : ProducevArgs → RDKafkaRespErr) (topic_name : List Nat)
    (partition : Option Int) (payload key : Option (List Nat)) (p : Ptr)
    (ts : Option Int) (args : ProducevArgs) (code : RDKafkaRespErr)
    (hcall : (send_copy pv topic_name partition payload key (some p) ts).call
        = some (args, code))
    (hrej : isError code = true) :
    (send_copy pv topic_name partition payload key (some p) ts).result
        = Except.error (KafkaError.MessageProduction code)
    ∧ args.handle = p
    ∧ (send_copy pv topic_name partition payload key (some p) ts).intoRawed = some p
    ∧ (send_copy pv topic_name partition payload key (some p) ts).droppedBoxes = [] := by
  have hres := send_copy_result_spec pv topic_name partition payload key
    (some p) ts args code hcall
  have hargs := send_copy_call_spec pv topic_name partition payload key
    (some p) ts args code hcall
  have hown := send_copy_ownership_effects pv topic_name partition payload key
    (some p) ts
  refine ⟨?_, ?_, hown.1, hown.2⟩
  · rw [hres, hrej]
    simp
  · simpa using hargs.2.2.2.2.2.2.2.2.1

/-- C2 witness for the amended claim: delivery context at address 5, engine
rejecting with code 1. -/
theorem send_copy_rejected_leaks_context_witness :
    (send_copy (fun _ => 1) [116] none none none (some 5) none).result
        = Except.error (KafkaError.MessageProduction 1)
    ∧ ({ topic := [116], partition := -1, msgflags := 2, payloadPtr := none,
         payloadLen := 0, keyPtr := none, keyLen := 0, handle := 5,
         timestamp := 0 } : ProducevArgs).handle = 5
    ∧ (send_copy (fun _ => 1) [116] none none none (some 5) none).intoRawed = some 5
    ∧ (send_copy (fun _ => 1) [116] none none none (some 5) none).droppedBoxes = [] :=
  send_copy_rejected_leaks_context (fun _ => 1) [116] none none none 5 none
    { topic := [116], partition := -1, msgflags := 2, payloadPtr := none,
      payloadLen := 0, keyPtr := none, keyLen := 0, handle := 5, timestamp := 0 }
    1 rfl (by decide)

/-- C3: for every accepted send that attached a delivery context, the
callback bridge destroys exactly one delivery context on the single
completion for that send — the one at the handle attached at send time
(round-tripped unaltered by the engine) — and passes it to the capability's
delivery method exactly once, releasing it after that method returns. -/
theorem bridge_destroys_exactly_one_delivery_context
    (pv : ProducevArgs → RDKafkaRespErr) (topic_name : List Nat)
    (partition : Option Int) (payload key : Option (List Nat)) (p : Ptr)
    (ts : Option Int) (ctxPtr : Ptr) (msg : RDKafkaMessage)
    (args : ProducevArgs) (code : RDKafkaRespErr)
    (hcall : (send_copy pv topic_name partition payload key (some p) ts).call
        = some (args, code))
    (haccepted : isError code = false)
    (hround : msg.priv = args.handle) :
    args.handle = p
    ∧ (delivery_cb ctxPtr msg).freed = [p]
    ∧ (delivery_cb ctxPtr msg).freed.count p = 1
    ∧ (delivery_cb ctxPtr msg).calls
        = [(ctxPtr, DeliveryReport.new msg.err msg.partition msg.offset, p)] := by
  have hargs := send_copy_call_spec pv topic_name partition payload key
    (some p) ts args code hcall
  have hh : args.handle = p := by simpa using hargs.2.2.2.2.2.2.2.2.1
  have hp : msg.priv = p := by rw [hround, hh]
  refine ⟨hh, ?_, ?_, ?_⟩
  · rw [delivery_cb_freed, hp]
  · rw [delivery_cb_freed, hp]
    simp
  · rw [delivery_cb_calls, hp]

/-- C3 witness: accepted send with delivery context at address 5, completion
round-tripping handle 5, capability at address 9. -/
theorem bridge_destroys_exactly_one_delivery_context_witness :
    ({ topic := [116], partition := -1, msgflags := 2, payloadPtr := none,
       payloadLen := 0, keyPtr := none, keyLen := 0, handle := 5,
       timestamp := 0 } : ProducevArgs).handle = 5
    ∧ (delivery_cb 9 { err := 0, partition := 2, offset := 7, priv := 5 }).freed = [5]
    ∧ (delivery_cb 9 { err := 0, partition := 2, offset := 7, priv := 5 }).freed.count 5 = 1
    ∧ (delivery_cb 9 { err := 0, partition := 2, offset := 7, priv := 5 }).calls
        = [(9, DeliveryReport.new 0 2 7, 5)] :=
  bridge_destroys_exactly_one_delivery_context (fun _ => 0) [116] none none none
    5 none 9 { err := 0, partition := 2, offset := 7, priv := 5 }
    { topic := [116], partition := -1, msgflags := 2, payloadPtr := none,
      payloadLen := 0, keyPtr := none, keyLen := 0, handle := 5, timestamp := 0 }
    0 rfl (by decide) rfl

/-- C4: a `DeliveryReport` built from a completion record maps a non-zero
response code to `success() = false` with `result()` the error variant
carrying that code, and the zero code to `success() = true` with
`result() = Ok((partition, offset))` unchanged from the record. -/
theorem delivery_report_success_result (e : RDKafkaRespErr) (p o : Int) :
    (e ≠ 0 →
      (DeliveryReport.new e p o).success = false
      ∧ (DeliveryReport.new e p o).result
          = Except.error (KafkaError.MessageProduction e))
    ∧ (e = 0 →
      (DeliveryReport.new e p o).success = true
      ∧ (DeliveryReport.new e p o).result = Except.ok (p, o)) := by
  constructor
  · intro h
    constructor
    · simp [DeliveryReport.new, DeliveryReport.success, isError, h]
    · simp [DeliveryReport.new, DeliveryReport.result, isError, h]
  · intro h
    subst h
    constructor
    · simp [DeliveryReport.new, DeliveryReport.success, isError]
    · simp [DeliveryReport.new, DeliveryReport.result, isError]

/-- C4 witness at response codes 1 and 0, partition 2, offset 3. -/
theorem delivery_report_success_result_witness :
    ((DeliveryReport.new 1 2 3).success = false
      ∧ (DeliveryReport.new 1 2 3).result
          = Except.error (KafkaError.MessageProduction 1))
    ∧ ((DeliveryReport.new 0 2 3).success = true
      ∧ (DeliveryReport.new 0 2 3).result = Except.ok (2, 3)) :=
  ⟨(delivery_report_success_result 1 2 3).1 (by decide),
   (delivery_report_success_result 0 2 3).2 rfl⟩

/-- C5: whenever `send_copy` reaches the engine, it returns `Ok(())` exactly
when `rd_kafka_producev` returned a non-error code, and an error code `e`
yields `Err(KafkaError::MessageProduction(e))` carrying that native code. -/
theorem send_copy_result_mirrors_engine_code
    (pv : ProducevArgs → RDKafkaRespErr) (topic_name : List Nat)
    (partition : Option Int) (payload key : Option (List Nat))
    (dctx : Option Ptr) (ts : Option Int)
    (args : ProducevArgs) (code : RDKafkaRespErr)
    (hcall : (send_copy pv topic_name partition payload key dctx ts).call
        = some (args, code)) :
    code = pv args
    ∧ ((send_copy pv topic_name partition payload key dctx ts).result
          = Except.ok () ↔ isError code = false)
    ∧ (isError code = true →
        (send_copy pv topic_name partition payload key dctx ts).result
          = Except.error (KafkaError.MessageProduction code)) := by
  have hres := send_copy_result_spec pv topic_name partition payload key
    dctx ts args code hcall
  have hargs := send_copy_call_spec pv topic_name partition payload key
    dctx ts args code hcall
  refine ⟨hargs.1, ?_, ?_⟩
  · rw [hres]
    cases hie : isError code <;> simp
  · intro hie
    rw [hres, hie]
    simp

/-- C5 witness: engine rejecting every send with code 7. -/
theorem send_copy_result_mirrors_engine_code_witness :
    (send_copy (fun _ => 7) [116] none none none none none).result
      = Except.error (KafkaError.MessageProduction 7) :=
  (send_copy_result_mirrors_engine_code (fun _ => 7) [116] none none none none none
    { topic := [116], partition := -1, msgflags := 2, payloadPtr := none,
      payloadLen := 0, keyPtr := none, keyLen := 0, handle := 0, timestamp := 0 }
    7 rfl).2.2 (by decide)

/-- C6: a `send_copy` whose topic name contains a NUL byte fails in
`CString::new` before the engine is reached: the result is the construction
error, `rd_kafka_producev` is never invoked, and the error is not a
production error carrying an engine response code. -/
theorem send_copy_interior_nul_construction_error
    (pv : ProducevArgs → RDKafkaRespErr) (topic_name : List Nat)
    (partition : Option Int) (payload key : Option (List Nat))
    (dctx : Option Ptr) (ts : Option Int)
    (hnul : topic_name.contains 0 = true) :
    (send_copy pv topic_name partition payload key dctx ts).result
        = Except.error KafkaError.Nul
    ∧ (send_copy pv topic_name partition payload key dctx ts).call = none
    ∧ ∀ code : RDKafkaRespErr,
        (send_copy pv topic_name partition payload key dctx ts).result
          ≠ Except.error (KafkaError.MessageProduction code) := by
  have hc : cstringNew topic_name = none := by
    unfold cstringNew
    rw [hnul]
    rfl
  refine ⟨by simp [send_copy, hc], by simp [send_copy, hc], ?_⟩
  intro code
  simp [send_copy, hc]

/-- C6 witness: topic name consisting of a single NUL byte. -/
theorem send_copy_interior_nul_construction_error_witness :
    (send_copy (fun _ => 0) [0] none none none none none).result
        = Except.error KafkaError.Nul
    ∧ (send_copy (fun _ => 0) [0] none none none none none).call = none
    ∧ ∀ code : RDKafkaRespErr,
        (send_copy (fun _ => 0) [0] none none none none none).result
          ≠ Except.error (KafkaError.MessageProduction code) :=
  send_copy_interior_nul_construction_error (fun _ => 0) [0] none none none
    none none (by decide)

/-- C7: the argument vector `send_copy` passes to the engine encodes absent
optional inputs per the send contract: partition `None` as the sentinel -1,
timestamp `None` as 0, absent payload or key as a null pointer with zero
length, and the copy-semantics flag `RD_KAFKA_MSG_F_COPY` always set. -/
theorem send_copy_engine_argument_encoding
    (pv : ProducevArgs → RDKafkaRespErr) (topic_name : List Nat)
    (partition : Option Int) (payload key : Option (List Nat))
    (dctx : Option Ptr) (ts : Option Int)
    (args : ProducevArgs) (code : RDKafkaRespErr)
    (hcall : (send_copy pv topic_name partition payload key dctx ts).call
        = some (args, code)) :
    args.msgflags = RD_KAFKA_MSG_F_COPY
    ∧ (partition = none → args.partition = -1)
    ∧ (ts = none → args.timestamp = 0)
    ∧ (payload = none → args.payloadPtr = none ∧ args.payloadLen = 0)
    ∧ (key = none → args.keyPtr = none ∧ args.keyLen = 0) := by
  obtain ⟨-, -, hpart, hflag, hpp, hpl, hkp, hkl, -, hts⟩ :=
    send_copy_call_spec pv topic_name partition payload key dctx ts args code hcall
  refine ⟨hflag, ?_, ?_, ?_, ?_⟩
  · intro h
    subst h
    simpa using hpart
  · intro h
    subst h
    simpa using hts
  · intro h
    subst h
    exact ⟨by simpa using hpp, by simpa using hpl⟩
  · intro h
    subst h
    exact ⟨by simpa using hkp, by simpa using hkl⟩

/-- C7 witness: every optional input absent. -/
theorem send_copy_engine_argument_encoding_witness :
    ({ topic := [116], partition := -1, msgflags := 2, payloadPtr := none,
       payloadLen := 0, keyPtr := none, keyLen := 0, handle := 0,
       timestamp := 0 } : ProducevArgs).msgflags = RD_KAFKA_MSG_F_COPY
    ∧ ((none : Option Int) = none →
        ({ topic := [116], partition := -1, msgflags := 2, payloadPtr := none,
           payloadLen := 0, keyPtr := none, keyLen := 0, handle := 0,
           timestamp := 0 } : ProducevArgs).partition = -1)
    ∧ ((none : Option Int) = none →
        ({ topic := [116], partition := -1, msgflags := 2, payloadPtr := none,
           payloadLen := 0, keyPtr := none, keyLen := 0, handle := 0,
           timestamp := 0 } : ProducevArgs).timestamp = 0)
    ∧ ((none : Option (List Nat)) = none →
        ({ topic := [116], partition := -1, msgflags := 2, payloadPtr := none,
           payloadLen := 0, keyPtr := none, keyLen := 0, handle := 0,
           timestamp := 0 } : ProducevArgs).payloadPtr = none
        ∧ ({ topic := [116], partition := -1, msgflags := 2, payloadPtr := none,
             payloadLen := 0, keyPtr := none, keyLen := 0, handle := 0,
             timestamp := 0 } : ProducevArgs).payloadLen = 0)
    ∧ ((none : Option (List Nat)) = none →
        ({ topic := [116], partition := -1, msgflags := 2, payloadPtr := none,
           payloadLen := 0, keyPtr := none, keyLen := 0, handle := 0,
           timestamp := 0 } : ProducevArgs).keyPtr = none
        ∧ ({ topic := [116], partition := -1, msgflags := 2, payloadPtr := none,
             payloadLen := 0, keyPtr := none, keyLen := 0, handle := 0,
             timestamp := 0 } : ProducevArgs).keyLen = 0) :=
  send_copy_engine_argument_encoding (fun _ => 0) [116] none none none none none
    { topic := [116], partition := -1, msgflags := 2, payloadPtr := none,
      payloadLen := 0, keyPtr := none, keyLen := 0, handle := 0, timestamp := 0 }
    0 rfl

/-- C8: cloning a producer handle yields a handle referencing the same
shared client allocation — same `Client` value, hence the same engine
connection (`native_ptr`) and the same context capability — and only
increments the reference count: no allocation is added or duplicated and
every stored `Client` value is unchanged. -/
theorem clone_shares_client_handle {C : Type} (h : ArcHeap (Client C))
    (b : BaseProducer) (v : Client C) (n : Nat)
    (hb : h b.client_arc = some (v, n)) :
    ((b.clone h).1).client_arc = b.client_arc
    ∧ (b.clone h).2 b.client_arc = some (v, n + 1)
    ∧ (∀ q : Ptr, ((b.clone h).2 q).map (fun vc => vc.1)
        = (h q).map (fun vc => vc.1))
    ∧ (∀ q : Ptr, ((b.clone h).2 q).isSome = (h q).isSome)
    ∧ ((b.clone h).1).native_ptr ((b.clone h).2) = b.native_ptr h := by
  refine ⟨rfl, ?_, ?_, ?_, ?_⟩
  · simp [BaseProducer.clone, arcClone, hb]
  · intro q
    by_cases hq : q = b.client_arc
    · subst hq
      simp [BaseProducer.clone, arcClone, hb]
    · simp [BaseProducer.clone, arcClone, hq]
  · intro q
    by_cases hq : q = b.client_arc
    · subst hq
      simp [BaseProducer.clone, arcClone, hb]
    · simp [BaseProducer.clone, arcClone, hq]
  · simp [BaseProducer.clone, BaseProducer.native_ptr, arcClone, hb]

/-- C8 witness: shared client at address 7 with engine handle 3 and unit
capability, strong count 1 before the clone. -/
theorem clone_shares_client_handle_witness :
    ((⟨7⟩ : BaseProducer).clone
        ((fun q => if q = 7 then some ({ nativePtr := 3, context := () }, 1)
            else none) : ArcHeap (Client Unit))).2 7
      = some ({ nativePtr := 3, context := () }, 2) :=
  (clone_shares_client_handle
    ((fun q => if q = 7 then some ({ nativePtr := 3, context := () }, 1)
        else none) : ArcHeap (Client Unit))
    ⟨7⟩ { nativePtr := 3, context := () } 1 rfl).2.1

/-- C9 counterexample: the engine's flush reports the two branches with
distinct response codes (quiescent vs timed out with pending sends), but
`BaseProducer::flush` returns `()` in both cases — the caller cannot
observe which of the two branches occurred, contrary to the claim. -/
theorem flush_branches_indistinguishable_counterexample :
    rd_kafka_flush 100 0 ≠ rd_kafka_flush 100 3
    ∧ BaseProducer.flush 100 0 = BaseProducer.flush 100 3 :=
  ⟨by decide, rfl⟩

/-- C9 amended: `flush(timeout)` delegates to the engine's flush, which
returns only after every prior accepted send has completed or the timeout
has elapsed and whose response code reports which branch occurred (no error
exactly when nothing is pending) — but `BaseProducer::flush` discards that
code and returns unit, so the caller cannot observe which branch occurred
through `flush`'s return value. -/
theorem flush_discards_engine_code :
    (∀ t : Int, ∀ pending : Nat,
        (isError (rd_kafka_flush t pending) = false ↔ pending = 0))
    ∧ ∀ t : Int, ∀ p1 p2 : Nat, BaseProducer.flush t p1 = BaseProducer.flush t p2 := by
  constructor
  · intro t pending
    by_cases hp : pending = 0 <;>
      simp [rd_kafka_flush, isError, RD_KAFKA_RESP_ERR_TIMED_OUT, hp]
  · intro t p1 p2
    rfl

/-- C10: a `send_copy` with no delivery context passes the null pointer as
the per-message handle, and the callback bridge has no guarded branch for
it: on the completion for such a send it still runs `Box::from_raw` on the
null handle, dereferences it into the delivery call, and releases it. -/
theorem null_delivery_context_unguarded
    (pv : ProducevArgs → RDKafkaRespErr) (topic_name : List Nat)
    (partition : Option Int) (payload key : Option (List Nat)) (ts : Option Int)
    (ctxPtr : Ptr) (err : RDKafkaRespErr) (part off : Int)
    (args : ProducevArgs) (code : RDKafkaRespErr)
    (hcall : (send_copy pv topic_name partition payload key none ts).call
        = some (args, code)) :
    args.handle = nullPtr
    ∧ (delivery_cb ctxPtr
          { err := err, partition := part, offset := off, priv := nullPtr }).calls
        = [(ctxPtr, DeliveryReport.new err part off, nullPtr)]
    ∧ (delivery_cb ctxPtr
          { err := err, partition := part, offset := off, priv := nullPtr }).freed
        = [nullPtr] := by
  have hargs := send_copy_call_spec pv topic_name partition payload key none ts
    args code hcall
  refine ⟨by simpa using hargs.2.2.2.2.2.2.2.2.1, ?_, ?_⟩
  · simp [delivery_cb_calls]
  · simp [delivery_cb_freed]

/-- C10 witness: send without delivery context, completion with code 3 at
partition 1, offset 4, capability at address 9. -/
theorem null_delivery_context_unguarded_witness :
    ({ topic := [116], partition := -1, msgflags := 2, payloadPtr := none,
       payloadLen := 0, keyPtr := none, keyLen := 0, handle := 0,
       timestamp := 0 } : ProducevArgs).handle = nullPtr
    ∧ (delivery_cb 9
          { err := 3, partition := 1, offset := 4, priv := nullPtr }).calls
        = [(9, DeliveryReport.new 3 1 4, nullPtr)]
    ∧ (delivery_cb 9
          { err := 3, partition := 1, offset := 4, priv := nullPtr }).freed
        = [nullPtr] :=
  null_delivery_context_unguarded (fun _ => 0) [116] none none none none 9 3 1 4
    { topic := [116], partition := -1, msgflags := 2, payloadPtr := none,
      payloadLen := 0, keyPtr := none, keyLen := 0, handle := 0, timestamp := 0 }
    0 rfl

end BaseProducerModel
